/-
Verification of the conversion-and-publish pipeline (src/app.py).

The development shallowly embeds the Python source: pure computations
become Lean functions; external effects (registry HTTP calls, the child
conversion process, the local filesystem) become explicit oracle values
and explicit state threaded through the functions, together with a trace
of the effectful calls performed.  Python exceptions become `Except` /
`Option` results.  Each definition mirrors the source function of the
same name.
-/
import Mathlib

namespace ConvertToOnnx

/-! ## Python string splitting

`str.split("/")` from Python, modelled character-by-character.
Python's split on a one-character separator always returns a non-empty
list; `"".split("/") == [""]`, `"a/b".split("/") == ["a","b"]`. -/

/-- Python's `s.split(sep)` for a one-character separator, on the
character list of the string. -/
def splitChar (c : Char) : List Char → List (List Char)
  | [] => [[]]
  | x :: xs =>
    match splitChar c xs with
    | [] => [[]]
    | r :: rs => if x = c then [] :: r :: rs else (x :: r) :: rs

/-- Python's `s.split("/")`, returning strings. -/
def pySplitSlash (s : String) : List String :=
  (splitChar '/' s.data).map String.mk

/-- Python's `s.split("/")[0]`. -/
def firstSegment (s : String) : String :=
  (pySplitSlash s).headD ""

/-- Python's `s.split("/")[-1]`. -/
def lastSegment (s : String) : String :=
  (pySplitSlash s).getLastD ""

/-! ## Configuration (class `Config`) -/

/-- `Config` from src/app.py (the dataclass fields, with `repo_path` as a
plain path string). -/
structure Config where
  hf_token : String
  hf_username : String
  is_using_user_token : Bool
  transformers_version : String := "3.6.1"
  hf_base_url : String := "https://huggingface.co"
  transformers_base_url : String := "https://github.com/huggingface/transformers.js/archive/refs"
  repo_path : String := "./transformers.js"
deriving DecidableEq

/-- Python truthiness of an optional string: `None` and `""` are falsy. -/
def truthy : Option String → Bool
  | none => false
  | some s => s ≠ ""

/-- Python's `a or b` on optional strings. -/
def pyOr (a b : Option String) : Option String :=
  if truthy a then a else b

/-- `Config.from_env` from src/app.py.  The registry's `whoami` call is
modelled as a total oracle `Option String → String` returning the account
name, per the registry interface contract (`whoami(token) -> {name}`);
`st.secrets.get("HF_TOKEN")`, `st.session_state.get("user_hf_token")` and
`os.getenv("SPACE_AUTHOR_NAME")` are the three optional-string inputs.
The `ValueError` raised on a missing credential becomes `Except.error`. -/
def Config.from_env (system_token user_token space_author_name : Option String)
    (whoami : Option String → String) : Except String Config :=
  let hf_username : String :=
    if truthy user_token then whoami user_token
    else if truthy space_author_name then space_author_name.getD ""
    else whoami system_token
  let hf_token : Option String := pyOr user_token system_token
  if truthy hf_token then
    Except.ok
      { hf_token := hf_token.getD ""
        hf_username := hf_username
        is_using_user_token := truthy user_token }
  else
    Except.error "When the user token is not provided, the system token must be set."

/-! ## Destination naming (from `main`, src/app.py lines 218-230) -/

/-- The `same_repo` value computed in `main`: the checkbox is only offered
(and its value only used) when the configured username equals the first
path segment of the input model id; otherwise `same_repo = False`. -/
def computeSameRepo (cfg : Config) (input_model_id : String) (checkbox : Bool) : Bool :=
  if cfg.hf_username = firstSegment input_model_id then checkbox else false

/-- `output_model_id` as computed in `main`:
`f"{config.hf_username}/{model_name}"`, with `"-ONNX"` appended when
`same_repo` is false. -/
def output_model_id (cfg : Config) (input_model_id : String) (same_repo : Bool) : String :=
  let model_name := lastSegment input_model_id
  let base := cfg.hf_username ++ "/" ++ model_name
  if same_repo then base else base ++ "-ONNX"

/-- Modelled from the spec's derivation rule, for comparison with the
code's computation: `modelName = last path segment of sourceModelId`; if
`registryUsername == first path segment` AND the operator opts in to
reuse, the destination is `registryUsername/modelName`, otherwise
`registryUsername/modelName + "-ONNX"`. -/
def specComputeDestination (sourceModelId username : String) (reuse : Bool) : String :=
  let modelName := lastSegment sourceModelId
  if username = firstSegment sourceModelId ∧ reuse = true then
    username ++ "/" ++ modelName
  else
    username ++ "/" ++ modelName ++ "-ONNX"

/-! ## Conversion subprocess (`ModelConverter._run_conversion_subprocess`,
`ModelConverter.convert_model`) -/

/-- What `subprocess.run` is handed: argument vector, working directory
and the explicit child environment. -/
structure SpawnSpec where
  cmd : List String
  cwd : String
  env : List (String × String)
deriving DecidableEq

/-- Abstracts Python's `sys.executable` (the interpreter path); its exact
value is irrelevant to every claim. -/
def sys_executable : String := "sys.executable"

/-- The result of `subprocess.run`: exit code and captured stderr text. -/
structure CompletedProcess where
  returncode : Int
  stderr : String
deriving DecidableEq

/-- The `SpawnSpec` built by `ModelConverter._run_conversion_subprocess`.
In the source, `subprocess.run` receives `env={"HF_TOKEN": ...}`
explicitly, so the child environment does not inherit the parent
process's environment: `parentEnv` is taken as an argument precisely to
record that the result does not depend on it. -/
def runConversionSpawnSpec (cfg : Config) (parentEnv : List (String × String))
    (input_model_id : String) (extra_args : List String) : SpawnSpec :=
  { cmd := [sys_executable, "-m", "scripts.convert", "--quantize",
            "--model_id", input_model_id] ++ extra_args
    cwd := cfg.repo_path
    env := [("HF_TOKEN", cfg.hf_token)] }

/-- The `SpawnSpec` that `convert_model` hands to the runner for a given
trust setting (`extra_args=["--trust_remote_code"]` when trust is
requested, no extra arguments otherwise). -/
def convertSpawnSpec (cfg : Config) (parentEnv : List (String × String))
    (input_model_id : String) (trust_remote_code : Bool) : SpawnSpec :=
  runConversionSpawnSpec cfg parentEnv input_model_id
    (if trust_remote_code then ["--trust_remote_code"] else [])

/-- `ModelConverter.convert_model` from src/app.py.  The actual spawn is
an oracle `runner : SpawnSpec → Except String CompletedProcess`
(`Except.error` models an exception while spawning/communicating, whose
`str(e)` is the carried message).  The second component of the result is
the list of spawns performed.  The `raise` on the trust-without-user-token
precondition is caught by the function's own `except` clause, which turns
any exception into `(False, str(e))`. -/
def convert_model (cfg : Config) (parentEnv : List (String × String))
    (runner : SpawnSpec → Except String CompletedProcess)
    (input_model_id : String) (trust_remote_code : Bool) :
    (Bool × String) × List SpawnSpec :=
  if trust_remote_code then
    if !cfg.is_using_user_token then
      ((false, "Trust Remote Code requires your own HuggingFace token."), [])
    else
      let spec := convertSpawnSpec cfg parentEnv input_model_id true
      match runner spec with
      | Except.error e => ((false, e), [spec])
      | Except.ok r =>
        if r.returncode ≠ 0 then ((false, r.stderr), [spec])
        else ((true, r.stderr), [spec])
  else
    let spec := convertSpawnSpec cfg parentEnv input_model_id false
    match runner spec with
    | Except.error e => ((false, e), [spec])
    | Except.ok r =>
      if r.returncode ≠ 0 then ((false, r.stderr), [spec])
      else ((true, r.stderr), [spec])

/-! ## Publishing (`ModelConverter.upload_model`)

The local filesystem is modelled as the list of existing paths; the
registry calls and the README write are oracles for their
success/failure.  `shutil.rmtree(p, ignore_errors=True)` removes `p` and
everything under it. -/

/-- Does path `p` lie at or under path `q`'s... i.e. is `p` a path prefix
of `q` (string prefix on characters)? -/
def pathPrefixOf (p q : String) : Bool :=
  p.data.isPrefixOf q.data

/-- `shutil.rmtree(p, ignore_errors=True)`: remove `p` and everything
under it from the filesystem. -/
def rmtree (p : String) (fs : List String) : List String :=
  fs.filter (fun q => !pathPrefixOf p q)

/-- `self.config.repo_path / "models" / input_model_id`. -/
def modelFolderPath (cfg : Config) (input_model_id : String) : String :=
  cfg.repo_path ++ "/models/" ++ input_model_id

/-- `ModelConverter.generate_readme` from src/app.py. -/
def generate_readme (imi : String) : String :=
  "---\nlibrary_name: transformers.js\nbase_model:\n- " ++ imi ++
  "\n---\n\n# " ++ lastSegment imi ++ " (ONNX)\n\n" ++
  "This is an ONNX version of [" ++ imi ++ "](https://huggingface.co/" ++ imi ++ "). " ++
  "It was automatically converted and uploaded using " ++
  "[this space](https://huggingface.co/spaces/onnx-community/convert-to-onnx).\n"

/-- Outcomes of the three effectful steps inside `upload_model`
(`create_repo`, writing the README file, `upload_folder`); `Except.error`
carries `str(e)` of the raised exception. -/
structure UploadOracles where
  createRepoResult : Except String Unit
  writeReadmeResult : Except String Unit
  uploadFolderResult : Except String Unit

/-- Registry / subprocess / filesystem calls a pipeline run performs, in
order. -/
inductive Event where
  | repoExistsCheck (repoId : String)
  | spawn (spec : SpawnSpec)
  | createRepo (repoId : String)
  | uploadFolder (folder : String) (repoId : String)
deriving DecidableEq

/-- `ModelConverter.upload_model` from src/app.py.  Returns the Python
return value (`None` on success, `str(e)` on a caught exception), the
filesystem after the `finally: shutil.rmtree(...)`, and the registry
calls performed.  The README is written only when
`{model_folder_path}/README.md` does not exist. -/
def upload_model (cfg : Config) (o : UploadOracles) (fs : List String)
    (input_model_id output_model_id : String) :
    Option String × List String × List Event :=
  let folder := modelFolderPath cfg input_model_id
  let readme := folder ++ "/README.md"
  let step : Option String × List String × List Event :=
    match o.createRepoResult with
    | Except.error e => (some e, fs, [Event.createRepo output_model_id])
    | Except.ok _ =>
      let afterReadme : Option String × List String :=
        if readme ∈ fs then (none, fs)
        else
          match o.writeReadmeResult with
          | Except.error e => (some e, fs)
          | Except.ok _ => (none, readme :: fs)
      match afterReadme with
      | (some e, fs1) => (some e, fs1, [Event.createRepo output_model_id])
      | (none, fs1) =>
        match o.uploadFolderResult with
        | Except.error e =>
          (some e, fs1,
           [Event.createRepo output_model_id, Event.uploadFolder folder output_model_id])
        | Except.ok _ =>
          (none, fs1,
           [Event.createRepo output_model_id, Event.uploadFolder folder output_model_id])
  (step.1, rmtree folder step.2.1, step.2.2)

/-! ## Toolchain provisioning (`ModelConverter._get_ref_type`,
`ModelConverter.setup_repository`)

Observable local state: whether `config.repo_path` exists and whether the
temporary archive file exists.  Network and filesystem calls are recorded
as events; their outcomes are oracles. -/

/-- Local filesystem state relevant to provisioning. -/
structure ProvisionState where
  repoExists : Bool
  archiveExists : Bool
deriving DecidableEq

/-- The effectful calls `setup_repository` can perform: the tag-probe
`urlopen` (network), the archive `urlretrieve` (network + writes the
archive file), the extraction + rename (filesystem), and the `finally`
`unlink` of the archive (filesystem). -/
inductive ProvEvent where
  | probe
  | download
  | extract
  | unlink
deriving DecidableEq

/-- Oracle outcomes for the external calls of `setup_repository`.
`probeResult` models `urlopen(url).getcode() == 200` (`Except.error` = the
`urlopen` raised); `urlretrieveResult` and `extractResult` model
`urlretrieve` and `_extract_archive`. -/
structure ProvisionOracles where
  probeResult : Except String Bool
  urlretrieveResult : Except String Unit
  extractResult : Except String Unit

/-- `ModelConverter._get_ref_type` from src/app.py: `"tags"` if the probe
returns HTTP 200, `"heads"` otherwise; an exception during the probe is
logged, not raised, and also yields `"heads"`. -/
def getRefType (probeResult : Except String Bool) : String :=
  match probeResult with
  | Except.ok b => if b then "tags" else "heads"
  | Except.error _ => "heads"

/-- `ModelConverter.setup_repository` from src/app.py.  No-op when
`config.repo_path` exists.  Otherwise: probe the ref type, download the
archive, extract it (the rename makes `repo_path` exist); any exception
during download or extraction is re-raised as
`RuntimeError(f"Failed to setup repository: {e}")`, and the `finally`
clause unlinks the archive file on every exit path (`missing_ok=True`). -/
def setup_repository (cfg : Config) (o : ProvisionOracles) (st : ProvisionState) :
    Except String Unit × ProvisionState × List ProvEvent :=
  if st.repoExists then (Except.ok (), st, [])
  else
    let _ref_type := getRefType o.probeResult
    match o.urlretrieveResult with
    | Except.error e =>
      (Except.error ("Failed to setup repository: " ++ e),
       { repoExists := false, archiveExists := false },
       [ProvEvent.probe, ProvEvent.download, ProvEvent.unlink])
    | Except.ok _ =>
      match o.extractResult with
      | Except.error e =>
        (Except.error ("Failed to setup repository: " ++ e),
         { repoExists := false, archiveExists := false },
         [ProvEvent.probe, ProvEvent.download, ProvEvent.extract, ProvEvent.unlink])
      | Except.ok _ =>
        (Except.ok (),
         { repoExists := true, archiveExists := false },
         [ProvEvent.probe, ProvEvent.download, ProvEvent.extract, ProvEvent.unlink])

/-! ## The pipeline driver (`main`, src/app.py lines 200-264)

`main` after the widgets have produced their values: the model id text,
the trust toggle, the same-repo checkbox (only consulted when offered)
and the Proceed button. -/

/-- The widget values a single `main` run consumes. -/
structure PipelineInput where
  input_model_id : String
  trust_remote_code : Bool
  same_repo_checkbox : Bool
  proceed : Bool

/-- Oracles for the external calls of a `main` run. -/
structure PipelineOracles where
  repoExists : String → Bool
  runner : SpawnSpec → Except String CompletedProcess
  upload : UploadOracles

/-- How a `main` run ends (each constructor is one `return` path of the
source). -/
inductive Outcome where
  | noInput
  | alreadyConverted (dest : String)
  | notProceeded
  | conversionFailed (diag : String)
  | uploadFailed (msg : String)
  | uploaded (dest : String)
deriving DecidableEq

/-- The pipeline body of `main` from src/app.py: destination naming, the
existence pre-check (short-circuited, so `repo_exists` is only called
when `same_repo` is false), conversion, then publishing.  Returns the
outcome, the final filesystem, and the trace of external calls.
`pipelineRest` is the part of the run after the existence pre-check
(Proceed button, conversion, publishing), with `evs0` the events already
performed. -/
def pipelineRest (cfg : Config) (parentEnv : List (String × String))
    (o : PipelineOracles) (fs : List String) (inp : PipelineInput)
    (dest : String) (evs0 : List Event) :
    Outcome × List String × List Event :=
  if !inp.proceed then (Outcome.notProceeded, fs, evs0)
  else
    let conv := convert_model cfg parentEnv o.runner inp.input_model_id
      inp.trust_remote_code
    let evs1 := evs0 ++ conv.2.map Event.spawn
    if !conv.1.1 then (Outcome.conversionFailed conv.1.2, fs, evs1)
    else
      let up := upload_model cfg o.upload fs inp.input_model_id dest
      match up.1 with
      | some e => (Outcome.uploadFailed e, up.2.1, evs1 ++ up.2.2)
      | none => (Outcome.uploaded dest, up.2.1, evs1 ++ up.2.2)

def runPipeline (cfg : Config) (parentEnv : List (String × String))
    (o : PipelineOracles) (fs : List String) (inp : PipelineInput) :
    Outcome × List String × List Event :=
  if inp.input_model_id = "" then (Outcome.noInput, fs, [])
  else
    let same_repo := computeSameRepo cfg inp.input_model_id inp.same_repo_checkbox
    let dest := output_model_id cfg inp.input_model_id same_repo
    if same_repo then pipelineRest cfg parentEnv o fs inp dest []
    else if o.repoExists dest then
      (Outcome.alreadyConverted dest, fs, [Event.repoExistsCheck dest])
    else pipelineRest cfg parentEnv o fs inp dest [Event.repoExistsCheck dest]

/-! ## Concrete configurations for instances -/

/-- A concrete configuration with an operator-supplied token. -/
def userCfg : Config :=
  { hf_token := "tok", hf_username := "alice", is_using_user_token := true }

/-- A concrete configuration running on the system token. -/
def sysCfg : Config :=
  { hf_token := "tok", hf_username := "alice", is_using_user_token := false }

/-- A runner whose child always exits with code 1 and stderr `"OOM"`. -/
def oomRunner : SpawnSpec → Except String CompletedProcess :=
  fun _ => Except.ok { returncode := 1, stderr := "OOM" }

/-- Upload oracles in which every call succeeds. -/
def okUpload : UploadOracles :=
  { createRepoResult := Except.ok ()
    writeReadmeResult := Except.ok ()
    uploadFolderResult := Except.ok () }

/-- Upload oracles in which `create_repo` raises `"boom"`. -/
def errUpload : UploadOracles :=
  { createRepoResult := Except.error "boom"
    writeReadmeResult := Except.ok ()
    uploadFolderResult := Except.ok () }

/-- Pipeline oracles for the OOM scenario: destination absent, child
process fails with `"OOM"`. -/
def oomOracles : PipelineOracles :=
  { repoExists := fun _ => false, runner := oomRunner, upload := okUpload }

/-- Pipeline oracles for a registry on which every repository already
exists. -/
def existsOracles : PipelineOracles :=
  { repoExists := fun _ => true, runner := oomRunner, upload := okUpload }

/-- Widget values converting someone else's model. -/
def oomInput : PipelineInput :=
  { input_model_id := "bob/foo", trust_remote_code := false,
    same_repo_checkbox := false, proceed := true }

/-- Widget values republishing into the operator's own repository. -/
def sameRepoInput : PipelineInput :=
  { input_model_id := "alice/foo", trust_remote_code := false,
    same_repo_checkbox := true, proceed := true }

/-- Provisioning oracles in which every external call succeeds. -/
def provOk : ProvisionOracles :=
  { probeResult := Except.ok true
    urlretrieveResult := Except.ok ()
    extractResult := Except.ok () }

/-- Provisioning oracles in which the archive download fails. -/
def provFail : ProvisionOracles :=
  { probeResult := Except.error "net"
    urlretrieveResult := Except.error "dl"
    extractResult := Except.ok () }

/-! ## Helper lemmas -/

theorem splitChar_of_not_mem {c : Char} {xs : List Char} (h : c ∉ xs) :
    splitChar c xs = [xs] := by
  induction xs with
  | nil => rfl
  | cons x xs ih =>
    have hx : ¬ x = c := by
      intro he
      exact h (he ▸ List.mem_cons_self x xs)
    have hxs : c ∉ xs := fun hm => h (List.mem_cons_of_mem _ hm)
    simp [splitChar, ih hxs, hx]

theorem pySplitSlash_of_no_slash {s : String} (h : '/' ∉ s.data) :
    pySplitSlash s = [s] := by
  simp [pySplitSlash, splitChar_of_not_mem h]

theorem isPrefixOf_self {α : Type} [DecidableEq α] (l : List α) :
    l.isPrefixOf l = true := by
  induction l with
  | nil => rfl
  | cons a l ih => simp [List.isPrefixOf, ih]

theorem not_mem_rmtree_self (p : String) (fs : List String) :
    p ∉ rmtree p fs := by
  intro hmem
  have := (List.mem_filter.mp hmem).2
  rw [pathPrefixOf, isPrefixOf_self] at this
  simp at this

theorem repoExistsCheck_not_mem_upload (cfg : Config) (o : UploadOracles)
    (fs : List String) (imi omi d : String) :
    Event.repoExistsCheck d ∉ (upload_model cfg o fs imi omi).2.2 := by
  cases hc : o.createRepoResult with
  | error e => simp [upload_model, hc]
  | ok u =>
    by_cases hm : (modelFolderPath cfg imi ++ "/README.md") ∈ fs
    · cases hup : o.uploadFolderResult with
      | error e => simp [upload_model, hc, hm, hup]
      | ok v => simp [upload_model, hc, hm, hup]
    · cases hw : o.writeReadmeResult with
      | error e => simp [upload_model, hc, hm, hw]
      | ok w =>
        cases hup : o.uploadFolderResult with
        | error e => simp [upload_model, hc, hm, hw, hup]
        | ok v => simp [upload_model, hc, hm, hw, hup]

theorem repoExistsCheck_not_mem_map_spawn (l : List SpawnSpec) (d : String) :
    Event.repoExistsCheck d ∉ l.map Event.spawn := by
  intro hm
  rcases List.mem_map.mp hm with ⟨s, _, hs⟩
  exact Event.noConfusion hs

theorem repoExistsCheck_not_mem_pipelineRest (cfg : Config)
    (p : List (String × String)) (o : PipelineOracles) (fs : List String)
    (inp : PipelineInput) (dest d : String) :
    Event.repoExistsCheck d ∉ (pipelineRest cfg p o fs inp dest []).2.2 := by
  rw [pipelineRest]
  split
  · simp
  · dsimp only
    split
    · intro hm
      rw [List.nil_append] at hm
      exact repoExistsCheck_not_mem_map_spawn _ _ hm
    · split <;>
      · intro hm
        rw [List.nil_append, List.mem_append] at hm
        rcases hm with hm | hm
        · exact repoExistsCheck_not_mem_map_spawn _ _ hm
        · exact repoExistsCheck_not_mem_upload _ _ _ _ _ _ hm

/-! ## Claims -/

/-- C1: Destination naming is a pure function of (sourceModelId,
configured username, reuse opt-in): the model name is the last path
segment of the source id; the destination is `username/modelName` with no
suffix exactly when the configured username equals the first path segment
and the operator opts in to reuse, and `username/modelName ++ "-ONNX"`
otherwise.  The code's computation agrees with the spec's derivation rule
on every input, and the three concrete instances of the claim hold. -/
theorem C1_destination_naming :
    (∀ (cfg : Config) (src : String) (reuse : Bool),
      output_model_id cfg src (computeSameRepo cfg src reuse)
        = specComputeDestination src cfg.hf_username reuse)
    ∧ output_model_id userCfg "alice/foo" (computeSameRepo userCfg "alice/foo" true)
        = "alice/foo"
    ∧ output_model_id userCfg "alice/foo" (computeSameRepo userCfg "alice/foo" false)
        = "alice/foo-ONNX"
    ∧ (∀ reuse : Bool,
      output_model_id userCfg "bob/foo" (computeSameRepo userCfg "bob/foo" reuse)
        = "alice/foo-ONNX") := by
  refine ⟨?_, by decide, by decide, ?_⟩
  · intro cfg src reuse
    by_cases h : cfg.hf_username = firstSegment src
    · cases reuse <;>
        simp [computeSameRepo, output_model_id, specComputeDestination, h]
    · simp [computeSameRepo, output_model_id, specComputeDestination, h]
  · intro reuse
    cases reuse <;> decide

/-- C10: The destination-naming computation is total over arbitrary
strings, not only `namespace/name` shapes: for every string containing no
`'/'`, both the first and last path segments are the whole string, so the
reuse checkbox is offered exactly when the string equals the configured
username, and the destination is `username ++ "/" ++ s` with `"-ONNX"`
appended unless reuse is chosen. -/
theorem C10_no_slash_totality (s : String) (h : '/' ∉ s.data) :
    firstSegment s = s ∧ lastSegment s = s
    ∧ (∀ (cfg : Config) (checkbox : Bool),
        computeSameRepo cfg s checkbox
          = if cfg.hf_username = s then checkbox else false)
    ∧ (∀ (cfg : Config) (same_repo : Bool),
        output_model_id cfg s same_repo
          = if same_repo then cfg.hf_username ++ "/" ++ s
            else cfg.hf_username ++ "/" ++ s ++ "-ONNX") := by
  have h1 : firstSegment s = s := by
    simp [firstSegment, pySplitSlash_of_no_slash h]
  have h2 : lastSegment s = s := by
    simp [lastSegment, pySplitSlash_of_no_slash h]
  refine ⟨h1, h2, ?_, ?_⟩
  · intro cfg checkbox
    rw [computeSameRepo, h1]
  · intro cfg same_repo
    cases same_repo <;> simp [output_model_id, h2]

/-- C2: For every request with trust-remote-code requested while the
credential is not operator-supplied, `convert_model` returns `(false, d)`
where the diagnostic `d` mentions the token requirement (it contains the
word `"token"`), and no conversion subprocess is spawned (the spawn trace
is empty). -/
theorem C2_trust_requires_user_token (cfg : Config)
    (parentEnv : List (String × String))
    (runner : SpawnSpec → Except String CompletedProcess)
    (input_model_id : String)
    (h : cfg.is_using_user_token = false) :
    convert_model cfg parentEnv runner input_model_id true
      = ((false, "Trust Remote Code requires your own HuggingFace token."), [])
    ∧ "Trust Remote Code requires your own HuggingFace token."
        = "Trust Remote Code requires your own HuggingFace " ++ "token" ++ "." := by
  constructor
  · simp [convert_model, h]
  · rfl

/-- Witness for C2 on the system-token configuration. -/
theorem C2_witness :
    convert_model sysCfg [] (fun _ => Except.error "boom") "org/model" true
      = ((false, "Trust Remote Code requires your own HuggingFace token."), [])
    ∧ "Trust Remote Code requires your own HuggingFace token."
        = "Trust Remote Code requires your own HuggingFace " ++ "token" ++ "." :=
  C2_trust_requires_user_token sysCfg [] (fun _ => Except.error "boom") "org/model" rfl

/-- C4: `convert_model` never raises outward — it is a total function
into result pairs.  When the trust gate passes and the child is spawned,
the result is `(returncode == 0, stderr)` for any exit code, an exception
while spawning/communicating becomes `(false, message)`, and in
particular a child exiting with code 1 and stderr `"OOM"` yields
`(false, "OOM")`, on which the pipeline stops before publishing (the
run's event trace contains no registry-upload call). -/
theorem C4_convert_model_never_raises :
    (∀ (cfg : Config) (p : List (String × String))
        (runner : SpawnSpec → Except String CompletedProcess)
        (id : String) (trust : Bool) (r : CompletedProcess),
      (trust = true → cfg.is_using_user_token = true) →
      runner (convertSpawnSpec cfg p id trust) = Except.ok r →
      convert_model cfg p runner id trust
        = ((decide (r.returncode = 0), r.stderr), [convertSpawnSpec cfg p id trust]))
    ∧ (∀ (cfg : Config) (p : List (String × String))
        (runner : SpawnSpec → Except String CompletedProcess)
        (id : String) (trust : Bool) (e : String),
      (trust = true → cfg.is_using_user_token = true) →
      runner (convertSpawnSpec cfg p id trust) = Except.error e →
      convert_model cfg p runner id trust
        = ((false, e), [convertSpawnSpec cfg p id trust]))
    ∧ convert_model userCfg [] oomRunner "bob/foo" false
        = ((false, "OOM"), [convertSpawnSpec userCfg [] "bob/foo" false])
    ∧ runPipeline userCfg [] oomOracles [] oomInput
        = (Outcome.conversionFailed "OOM", [],
           [Event.repoExistsCheck "alice/foo-ONNX",
            Event.spawn (convertSpawnSpec userCfg [] "bob/foo" false)]) := by
  refine ⟨?_, ?_, by decide, by decide⟩
  · intro cfg p runner id trust r hgate hrun
    cases trust with
    | false =>
      by_cases hr : r.returncode = 0 <;> simp [convert_model, hrun, hr]
    | true =>
      have hu := hgate rfl
      by_cases hr : r.returncode = 0 <;> simp [convert_model, hu, hrun, hr]
  · intro cfg p runner id trust e hgate hrun
    cases trust with
    | false => simp [convert_model, hrun]
    | true =>
      have hu := hgate rfl
      simp [convert_model, hu, hrun]

/-- Witness for C4 at the OOM child process. -/
theorem C4_witness :
    convert_model userCfg [] oomRunner "bob/foo" false
      = ((decide ((1 : Int) = 0), "OOM"), [convertSpawnSpec userCfg [] "bob/foo" false]) :=
  C4_convert_model_never_raises.1 userCfg [] oomRunner "bob/foo" false
    { returncode := 1, stderr := "OOM" } (fun h => Bool.noConfusion h) rfl

/-- C9: The conversion child process receives an environment containing
exactly the registry credential, independent of the parent environment
(two parent environments give the same spawn specification), working
directory the toolchain checkout, and a command line with the quantize
flag, the model id, and the trust flag appended exactly when elevated
trust is requested; whatever the runner does, `convert_model` spawns
either nothing or exactly this specification. -/
theorem C9_child_process_isolation (cfg : Config)
    (p1 p2 : List (String × String)) (id : String) (trust : Bool) :
    convertSpawnSpec cfg p1 id trust = convertSpawnSpec cfg p2 id trust
    ∧ (convertSpawnSpec cfg p1 id trust).env = [("HF_TOKEN", cfg.hf_token)]
    ∧ (convertSpawnSpec cfg p1 id trust).cwd = cfg.repo_path
    ∧ (convertSpawnSpec cfg p1 id trust).cmd
        = [sys_executable, "-m", "scripts.convert", "--quantize", "--model_id", id]
          ++ (if trust then ["--trust_remote_code"] else [])
    ∧ (∀ runner, (convert_model cfg p1 runner id trust).2 = []
        ∨ (convert_model cfg p1 runner id trust).2
            = [convertSpawnSpec cfg p1 id trust]) := by
  refine ⟨rfl, rfl, rfl, rfl, ?_⟩
  intro runner
  cases trust with
  | false =>
    cases hr : runner (convertSpawnSpec cfg p1 id false) with
    | error e => right; simp [convert_model, hr]
    | ok r =>
      right
      by_cases h0 : r.returncode = 0 <;> simp [convert_model, hr, h0]
  | true =>
    by_cases hu : cfg.is_using_user_token = true
    · cases hr : runner (convertSpawnSpec cfg p1 id true) with
      | error e => right; simp [convert_model, hu, hr]
      | ok r =>
        right
        by_cases h0 : r.returncode = 0 <;> simp [convert_model, hu, hr, h0]
    · left
      simp only [Bool.not_eq_true] at hu
      simp [convert_model, hu]

/-- C3: When the computed same-repository flag is false and the registry
reports that the destination already exists, the pipeline reports the
existing destination and its event trace is exactly the one existence
check — no conversion subprocess and no upload call; when the flag is
true, no existence pre-check appears in the trace at all. -/
theorem C3_existence_precheck (cfg : Config) (p : List (String × String))
    (o : PipelineOracles) (fs : List String) (inp : PipelineInput)
    (hne : ¬ inp.input_model_id = "") :
    (computeSameRepo cfg inp.input_model_id inp.same_repo_checkbox = false →
      o.repoExists (output_model_id cfg inp.input_model_id false) = true →
      runPipeline cfg p o fs inp
        = (Outcome.alreadyConverted (output_model_id cfg inp.input_model_id false), fs,
           [Event.repoExistsCheck (output_model_id cfg inp.input_model_id false)]))
    ∧ (computeSameRepo cfg inp.input_model_id inp.same_repo_checkbox = true →
      ∀ d, Event.repoExistsCheck d ∉ (runPipeline cfg p o fs inp).2.2) := by
  constructor
  · intro hsr hex
    simp [runPipeline, hne, hsr, hex]
  · intro hsr d
    rw [runPipeline]
    simp only [hne, if_false, hsr, if_true]
    exact repoExistsCheck_not_mem_pipelineRest cfg p o fs inp _ d

/-- Witness for C3: the short-circuit on an existing destination, and the
absence of the pre-check on a same-repository run. -/
theorem C3_witness :
    runPipeline userCfg [] existsOracles [] oomInput
      = (Outcome.alreadyConverted (output_model_id userCfg "bob/foo" false), [],
         [Event.repoExistsCheck (output_model_id userCfg "bob/foo" false)])
    ∧ Event.repoExistsCheck "alice/foo"
        ∉ (runPipeline userCfg [] existsOracles [] sameRepoInput).2.2 :=
  ⟨(C3_existence_precheck userCfg [] existsOracles [] oomInput
      (by decide)).1 (by decide) rfl,
   (C3_existence_precheck userCfg [] existsOracles [] sameRepoInput
      (by decide)).2 (by decide) "alice/foo"⟩

/-- C5: Configuration construction fails (with the missing-credential
error) exactly in the credential-less environments: if neither the
operator-supplied token nor the system token is present (Python-truthy),
`Config.from_env` returns the error, and it succeeds whenever at least
one of the two is present. -/
theorem C5_credential_invariant (system_token user_token space_author_name : Option String)
    (whoami : Option String → String) :
    (truthy user_token = false → truthy system_token = false →
      Config.from_env system_token user_token space_author_name whoami
        = Except.error "When the user token is not provided, the system token must be set.")
    ∧ ((truthy user_token = true ∨ truthy system_token = true) →
      ∃ cfg : Config,
        Config.from_env system_token user_token space_author_name whoami
          = Except.ok cfg) := by
  constructor
  · intro hu hs
    simp [Config.from_env, pyOr, hu, hs]
  · intro h
    have ht : truthy (pyOr user_token system_token) = true := by
      by_cases hu : truthy user_token = true
      · simp [pyOr, hu]
      · simp only [Bool.not_eq_true] at hu
        rcases h with h | h
        · rw [hu] at h
          exact Bool.noConfusion h
        · simp [pyOr, hu, h]
    refine ⟨{ hf_token := (pyOr user_token system_token).getD ""
              hf_username :=
                if truthy user_token then whoami user_token
                else if truthy space_author_name then space_author_name.getD ""
                else whoami system_token
              is_using_user_token := truthy user_token }, ?_⟩
    simp [Config.from_env, ht]

/-- Witness for C5: no credential at all fails; a system credential alone
succeeds. -/
theorem C5_witness :
    Config.from_env none none none (fun _ => "alice")
      = Except.error "When the user token is not provided, the system token must be set."
    ∧ ∃ cfg : Config,
        Config.from_env (some "sys") none none (fun _ => "alice") = Except.ok cfg :=
  ⟨(C5_credential_invariant none none none (fun _ => "alice")).1 rfl rfl,
   (C5_credential_invariant (some "sys") none none (fun _ => "alice")).2
     (Or.inr (by decide))⟩

/-- C6: After every `upload_model` call the per-request output directory
(keyed by the source model id) no longer exists in the filesystem, on
success and on failure alike; and every exception raised by repository
creation, README synthesis, or folder upload is caught and returned as a
message (the function is total into `Option String`). -/
theorem C6_publish_cleanup (cfg : Config) (o : UploadOracles) (fs : List String)
    (imi omi : String) :
    modelFolderPath cfg imi ∉ (upload_model cfg o fs imi omi).2.1
    ∧ (∀ e, o.createRepoResult = Except.error e →
        (upload_model cfg o fs imi omi).1 = some e)
    ∧ (∀ e, o.createRepoResult = Except.ok () →
        (modelFolderPath cfg imi ++ "/README.md") ∉ fs →
        o.writeReadmeResult = Except.error e →
        (upload_model cfg o fs imi omi).1 = some e)
    ∧ (∀ e, o.createRepoResult = Except.ok () →
        ((modelFolderPath cfg imi ++ "/README.md") ∈ fs
          ∨ o.writeReadmeResult = Except.ok ()) →
        o.uploadFolderResult = Except.error e →
        (upload_model cfg o fs imi omi).1 = some e) := by
  refine ⟨not_mem_rmtree_self _ _, ?_, ?_, ?_⟩
  · intro e hc
    simp [upload_model, hc]
  · intro e hc hm hw
    simp [upload_model, hc, hm, hw]
  · intro e hc hmw hup
    rcases hmw with hm | hw
    · simp [upload_model, hc, hm, hup]
    · by_cases hm : (modelFolderPath cfg imi ++ "/README.md") ∈ fs
      · simp [upload_model, hc, hm, hup]
      · simp [upload_model, hc, hm, hw, hup]

/-- Witness for C6: a failing `create_repo` yields its message and the
output directory is still removed. -/
theorem C6_witness :
    modelFolderPath userCfg "bob/foo" ∉
      (upload_model userCfg errUpload
        [modelFolderPath userCfg "bob/foo"] "bob/foo" "alice/foo-ONNX").2.1
    ∧ (upload_model userCfg errUpload
        [modelFolderPath userCfg "bob/foo"] "bob/foo" "alice/foo-ONNX").1 = some "boom" :=
  ⟨(C6_publish_cleanup userCfg errUpload
      [modelFolderPath userCfg "bob/foo"] "bob/foo" "alice/foo-ONNX").1,
   (C6_publish_cleanup userCfg errUpload
      [modelFolderPath userCfg "bob/foo"] "bob/foo" "alice/foo-ONNX").2.1 "boom" rfl⟩

/-- C7: Provisioning is idempotent — when the toolchain path already
exists, `setup_repository` returns immediately with the state unchanged
and an empty trace of network/filesystem calls; and after any successful
call, a second call (under arbitrary oracles) does nothing. -/
theorem C7_provisioning_idempotent (cfg : Config) (o o2 : ProvisionOracles)
    (st : ProvisionState) (h : st.repoExists = true) :
    setup_repository cfg o st = (Except.ok (), st, [])
    ∧ (∀ st0 : ProvisionState, (setup_repository cfg o st0).1 = Except.ok () →
        setup_repository cfg o2 (setup_repository cfg o st0).2.1
          = (Except.ok (), (setup_repository cfg o st0).2.1, [])) := by
  constructor
  · simp [setup_repository, h]
  · intro st0 hok
    have hre : (setup_repository cfg o st0).2.1.repoExists = true := by
      by_cases h0 : st0.repoExists = true
      · simp [setup_repository, h0]
      · simp only [Bool.not_eq_true] at h0
        cases hu : o.urlretrieveResult with
        | error e =>
          exfalso
          simp [setup_repository, h0, hu] at hok
        | ok u =>
          cases hx : o.extractResult with
          | error e =>
            exfalso
            simp [setup_repository, h0, hu, hx] at hok
          | ok x => simp [setup_repository, h0, hu, hx]
    generalize hg : (setup_repository cfg o st0).2.1 = st1 at hre ⊢
    simp [setup_repository, hre]

/-- Witness for C7: a no-op on an existing checkout, and a no-op second
call after a successful first one. -/
theorem C7_witness :
    setup_repository userCfg provOk { repoExists := true, archiveExists := false }
      = (Except.ok (), { repoExists := true, archiveExists := false }, [])
    ∧ setup_repository userCfg provOk
        (setup_repository userCfg provOk
          { repoExists := false, archiveExists := false }).2.1
      = (Except.ok (),
         (setup_repository userCfg provOk
           { repoExists := false, archiveExists := false }).2.1, []) :=
  ⟨(C7_provisioning_idempotent userCfg provOk provOk
      { repoExists := true, archiveExists := false } rfl).1,
   (C7_provisioning_idempotent userCfg provOk provOk
      { repoExists := true, archiveExists := false } rfl).2
     { repoExists := false, archiveExists := false } rfl⟩

/-- C8: On a provisioning run where the toolchain path does not yet
exist, a failure of the archive download or of the extraction surfaces as
the wrapping `"Failed to setup repository: ..."` error, and on every exit
path the temporary archive file no longer exists. -/
theorem C8_provisioning_failure (cfg : Config) (o : ProvisionOracles)
    (st : ProvisionState) (h : st.repoExists = false) :
    (setup_repository cfg o st).2.1.archiveExists = false
    ∧ (∀ e, o.urlretrieveResult = Except.error e →
        (setup_repository cfg o st).1
          = Except.error ("Failed to setup repository: " ++ e))
    ∧ (∀ e, o.urlretrieveResult = Except.ok () →
        o.extractResult = Except.error e →
        (setup_repository cfg o st).1
          = Except.error ("Failed to setup repository: " ++ e)) := by
  refine ⟨?_, ?_, ?_⟩
  · cases hu : o.urlretrieveResult with
    | error e => simp [setup_repository, h, hu]
    | ok u =>
      cases hx : o.extractResult with
      | error e => simp [setup_repository, h, hu, hx]
      | ok x => simp [setup_repository, h, hu, hx]
  · intro e hu
    simp [setup_repository, h, hu]
  · intro e hu hx
    simp [setup_repository, h, hu, hx]

/-- Witness for C8: a failed download wraps its cause and the archive is
gone. -/
theorem C8_witness :
    (setup_repository userCfg provFail
      { repoExists := false, archiveExists := true }).2.1.archiveExists = false
    ∧ (setup_repository userCfg provFail
        { repoExists := false, archiveExists := true }).1
      = Except.error ("Failed to setup repository: " ++ "dl") :=
  ⟨(C8_provisioning_failure userCfg provFail
      { repoExists := false, archiveExists := true } rfl).1,
   (C8_provisioning_failure userCfg provFail
      { repoExists := false, archiveExists := true } rfl).2.1 "dl" rfl⟩

/-- Witness for C10 at the slash-free input `"foo"`. -/
theorem C10_witness :
    ('/' ∉ "foo".data) ∧ firstSegment "foo" = "foo" ∧ lastSegment "foo" = "foo" :=
  ⟨by decide, (C10_no_slash_totality "foo" (by decide)).1,
    (C10_no_slash_totality "foo" (by decide)).2.1⟩

end ConvertToOnnx
